import Mathlib

/-!
Shallow embedding of the wallet connection lifecycle coordinator
(`WalletStore` from `packages/data-access/src/lib/wallet.store.ts`),
its persisted selection cell (`LocalStorageSubject`), and the
capability-gated signing helpers (`signMessage` / `signTransaction` /
`signAllTransactions` from the internals module).

The reactive machinery (rxjs streams, `combineLatest`, `first()`,
`concatMap`) collapses to a pure state-transition system: every effect
of the store is a total function on a `Config` (store state plus the
name subject and the durable storage cell plus the heap of adapter
objects), and a run is a left fold of events over a configuration.
Adapter objects live on a heap keyed by name; state fields that hold an
adapter reference hold the adapter's name, and dynamic reads
(`adapter.connected`, `adapter.publicKey`, `adapter.readyState`)
dereference the heap at read time, mirroring the reference semantics of
the source.
-/

namespace WalletAdapter

/-- Ready states of a wallet adapter, from `@solana/wallet-adapter-base`. -/
inductive WalletReadyState
  | Unsupported
  | NotDetected
  | Loadable
  | Installed
deriving DecidableEq, Repr

/-- Public keys are opaque identities here. -/
abbrev PublicKey := Nat

/-- Wallet names are strings. -/
abbrev WalletName := String

/-- Transactions are opaque payloads. -/
abbrev Transaction := Nat

/-- The error kinds that the coordinator can surface. `adapterError`
stands for an opaque adapter-defined rejection payload. -/
inductive WalletError
  | notConnected
  | notReady
  | notSelected
  | adapterError (code : Nat)
deriving DecidableEq, Repr

/-- An adapter object: static identity plus the dynamic fields the
store snapshots (`connected`, `publicKey`, `readyState`) and the three
optional signing capabilities, modelled as presence flags (the source
tests presence with the `in` operator). -/
structure AdapterObj where
  name : WalletName
  url : String
  readyState : WalletReadyState
  connected : Bool
  publicKey : Option PublicKey
  hasSignTransaction : Bool
  hasSignAllTransactions : Bool
  hasSignMessage : Bool
deriving DecidableEq, Repr

/-- The heap of live adapter objects. References are names; lookup is
first match, as with `Array.prototype.find` keyed on `adapter.name`. -/
abbrev Heap := List AdapterObj

/-- Dereference an adapter name on the heap. -/
def heapFind (h : Heap) (n : WalletName) : Option AdapterObj :=
  h.find? (fun a => a.name == n)

/-- Dynamic read of `adapter.connected` through a reference. -/
def heapConnected (h : Heap) (n : WalletName) : Bool :=
  ((heapFind h n).map AdapterObj.connected).getD false

/-- Dynamic read of `adapter.publicKey` through a reference. -/
def heapPublicKey (h : Heap) (n : WalletName) : Option PublicKey :=
  (heapFind h n).bind AdapterObj.publicKey

/-- Dynamic read of `adapter.readyState` through a reference. -/
def heapReadyState (h : Heap) (n : WalletName) : Option WalletReadyState :=
  (heapFind h n).map AdapterObj.readyState

/-- Capability probe on a referenced adapter (the `'cap' in adapter`
check of the source). -/
def heapHas (h : Heap) (n : WalletName) (f : AdapterObj → Bool) : Bool :=
  ((heapFind h n).map f).getD false

/-- A `Wallet` pairs an adapter reference with a cached ready state
(`interface Wallet { adapter; readyState }`). -/
structure Wallet where
  adapterName : WalletName
  readyState : WalletReadyState
deriving DecidableEq, Repr

/-- The canonical `WalletState` owned by the store, field for field. -/
structure WalletState where
  adapters : List WalletName
  wallets : List Wallet
  wallet : Option Wallet
  adapter : Option WalletName
  connecting : Bool
  disconnecting : Bool
  unloading : Bool
  connected : Bool
  readyState : Option WalletReadyState
  publicKey : Option PublicKey
  autoConnect : Bool
  error : Option WalletError
deriving DecidableEq, Repr

/-- A configuration: the adapter heap, the store state, the
`LocalStorageSubject` current value, and the durable storage cell
contents for the configured key (serialized characters, `none` when the
key is absent). -/
structure Config where
  heap : Heap
  st : WalletState
  nameVal : Option WalletName
  storage : Option (List Char)
deriving DecidableEq, Repr

/-- The double-quote character used by JSON string serialization. -/
def quoteChar : Char := Char.ofNat 34

/-- Serialization, `JSON.stringify` of a wallet name: the name wrapped in quotes. -/
def encode (s : WalletName) : List Char :=
  quoteChar :: (s.data ++ [quoteChar])

/-- Deserialization, `JSON.parse` restricted to string payloads; anything else fails
(and the source catches the failure, yielding null). -/
def decode (l : List Char) : Option WalletName :=
  match l with
  | [] => none
  | c :: rest =>
      if c = quoteChar ∧ rest.getLast? = some quoteChar then
        some (String.mk rest.dropLast)
      else none

/-- The `getInitialValue` helper of `LocalStorageSubject`: read the durable value;
an absent key, an empty (falsy) string, or a parse failure all yield
null. -/
def getInitialValue (storage : Option (List Char)) : Option WalletName :=
  match storage with
  | none => none
  | some v => if v = [] then none else decode v

/-- The `LocalStorageSubject.next` override: null removes the durable entry, a value
is serialized and stored; then the subject's current value is updated
and replayed to subscribers. -/
def lssNext (c : Config) (v : Option WalletName) : Config :=
  { c with
    storage := match v with
               | none => none
               | some s => some (encode s)
    nameVal := v }

/-- The `onWalletChanged` reconciliation: look up a registered wallet
whose adapter name equals the subject's current value; on a match,
snapshot the adapter's dynamic fields into state; otherwise reset the
five selection fields to the `initialState` defaults. -/
def reconcile (c : Config) : Config :=
  match c.st.wallets.find? (fun w => c.nameVal == some w.adapterName) with
  | some w =>
      { c with st := { c.st with
          wallet := some w
          adapter := some w.adapterName
          connected := heapConnected c.heap w.adapterName
          publicKey := heapPublicKey c.heap w.adapterName
          readyState := heapReadyState c.heap w.adapterName } }
  | none =>
      { c with st := { c.st with
          wallet := none
          adapter := none
          connected := false
          publicKey := none
          readyState := none } }

/-- The `selectWallet` operation: write the name through the persisted cell; the
subject emission synchronously drives the reconciliation effect. -/
def selectWallet (c : Config) (v : Option WalletName) : Config :=
  reconcile (lssNext c v)

/-- The `_setError` updater: record the error unless the store is
unloading, in which case the previous error is kept. -/
def setError (c : Config) (e : WalletError) : Config :=
  { c with st := { c.st with
      error := if c.st.unloading then c.st.error else some e } }

/-- The `_setReadyState` updater: refresh the cached ready state of the
named wallet in the list, and the top-level `readyState` field when the
named adapter is the selected one. -/
def setReadyState (c : Config) (rs : WalletReadyState) (walletName : WalletName) : Config :=
  { c with st := { c.st with
      wallets := c.st.wallets.map
        (fun w => if w.adapterName == walletName then { w with readyState := rs } else w)
      readyState := if c.st.adapter == some walletName then some rs else c.st.readyState } }

/-- Store construction: the initial state (all selection fields null,
all flags false, `autoConnect` from configuration), `setAdapters` with
the configured adapters, the subject initialized from durable storage,
and the immediately-firing `onWalletChanged` reconciliation. -/
def initConfig (adapters : List AdapterObj) (autoConnect : Bool)
    (storage : Option (List Char)) : Config :=
  reconcile
    { heap := adapters
      st := { adapters := adapters.map AdapterObj.name
              wallets := adapters.map (fun a => ⟨a.name, a.readyState⟩)
              wallet := none
              adapter := none
              connecting := false
              disconnecting := false
              unloading := false
              connected := false
              readyState := none
              publicKey := none
              autoConnect := autoConnect
              error := none }
      nameVal := getInitialValue storage
      storage := storage }

/-- The synchronous part of a `connect()` call: the one-shot sampled
guard, the no-adapter and not-ready failure branches, and setting
`connecting` before the asynchronous `adapter.connect()` starts. -/
def connectStartStep (c : Config) : Config :=
  if c.st.connecting || c.st.disconnecting || c.st.connected then c
  else
    match c.st.adapter with
    | none => setError c .notSelected
    | some _ =>
        if c.st.readyState = some .Installed ∨ c.st.readyState = some .Loadable then
          { c with st := { c.st with connecting := true } }
        else
          setError (selectWallet c none) .notReady

/-- Settlement of an in-flight `adapter.connect()` (user-initiated or
autoconnect — their state effects coincide): on rejection the selection
is cleared (`selectWallet(null)` in `catchError`); either way `finalize`
resets `connecting`. The rejection is not recorded by this pipeline. -/
def connectSettleStep (c : Config) (err : Option WalletError) : Config :=
  if c.st.connecting then
    let c1 := match err with
              | some _ => selectWallet c none
              | none => c
    { c1 with st := { c1.st with connecting := false } }
  else c

/-- The synchronous part of a `disconnect()` call: one-shot guard on
`disconnecting` only; with no adapter it re-writes a null selection and
completes empty; otherwise it sets `disconnecting` before the
asynchronous `adapter.disconnect()`. -/
def disconnectStartStep (c : Config) : Config :=
  if c.st.disconnecting then c
  else
    match c.st.adapter with
    | none => selectWallet c none
    | some _ => { c with st := { c.st with disconnecting := true } }

/-- Settlement of an in-flight `adapter.disconnect()`: on rejection the
selection is cleared and the error rethrown; `finalize` resets
`disconnecting`. -/
def disconnectSettleStep (c : Config) (err : Option WalletError) : Config :=
  if c.st.disconnecting then
    let c1 := match err with
              | some _ => selectWallet c none
              | none => c
    { c1 with st := { c1.st with disconnecting := false } }
  else c

/-- One firing of the `onAutoConnect` effect: when autoconnect is
enabled, an adapter is selected and ready, and the store is neither
connecting nor connected, start a connect. Note the guard does not
consult `disconnecting`. -/
def autoConnectFireStep (c : Config) : Config :=
  if c.st.autoConnect = true ∧ c.st.adapter ≠ none ∧
     (c.st.readyState = some .Installed ∨ c.st.readyState = some .Loadable) ∧
     c.st.connecting = false ∧ c.st.connected = false then
    { c with st := { c.st with connecting := true } }
  else c

/-- A `connect` event from the selected adapter (`onConnect`): refresh
`connected` and `publicKey` from the adapter's current fields. Events
only reach the store while an adapter is selected (`handleEvent`). -/
def adapterConnectEvtStep (c : Config) : Config :=
  match c.st.adapter with
  | none => c
  | some n =>
      { c with st := { c.st with
          connected := heapConnected c.heap n
          publicKey := heapPublicKey c.heap n } }

/-- A `disconnect` event from the selected adapter (`onDisconnect`):
sampled against `unloading`; suppressed during teardown, otherwise the
selection is cleared. -/
def adapterDisconnectEvtStep (c : Config) : Config :=
  match c.st.adapter with
  | none => c
  | some _ => if c.st.unloading then c else selectWallet c none

/-- An `error` event from the selected adapter (`onError`): routed to
`_setError`. -/
def adapterErrorEvtStep (c : Config) (e : WalletError) : Config :=
  match c.st.adapter with
  | none => c
  | some _ => setError c e

/-- A `readyStateChange` event from a registered adapter
(`onReadyStateChanges`): the adapter object's ready state changes on
the heap and `_setReadyState` runs. Listeners exist only for adapters
in the registered list. -/
def readyStateChangeEvtStep (c : Config) (n : WalletName) (rs : WalletReadyState) : Config :=
  if c.st.adapters.contains n then
    setReadyState
      { c with heap := c.heap.map (fun a =>
          if a.name == n then { a with readyState := rs } else a) }
      rs n
  else c

/-- The `beforeunload` browser event (`onWindowUnload`). -/
def windowUnloadStep (c : Config) : Config :=
  { c with st := { c.st with unloading := true } }

/-- Environment nondeterminism: an adapter's own connection status and
public key change outside the store. -/
def envSetAdapterStep (c : Config) (n : WalletName) (b : Bool) (pk : Option PublicKey) : Config :=
  { c with heap := c.heap.map (fun a =>
      if a.name == n then { a with connected := b, publicKey := pk } else a) }

/-- The events that can interleave against a live store. -/
inductive Event
  | selectWalletEvt (v : Option WalletName)
  | connectStart
  | connectSettle (err : Option WalletError)
  | disconnectStart
  | disconnectSettle (err : Option WalletError)
  | autoConnectFire
  | adapterConnectEvt
  | adapterDisconnectEvt
  | adapterErrorEvt (e : WalletError)
  | readyStateChangeEvt (n : WalletName) (rs : WalletReadyState)
  | windowUnload
  | envSetAdapter (n : WalletName) (b : Bool) (pk : Option PublicKey)
deriving DecidableEq, Repr

/-- One transition. -/
def step (c : Config) : Event → Config
  | .selectWalletEvt v => selectWallet c v
  | .connectStart => connectStartStep c
  | .connectSettle err => connectSettleStep c err
  | .disconnectStart => disconnectStartStep c
  | .disconnectSettle err => disconnectSettleStep c err
  | .autoConnectFire => autoConnectFireStep c
  | .adapterConnectEvt => adapterConnectEvtStep c
  | .adapterDisconnectEvt => adapterDisconnectEvtStep c
  | .adapterErrorEvt e => adapterErrorEvtStep c e
  | .readyStateChangeEvt n rs => readyStateChangeEvtStep c n rs
  | .windowUnload => windowUnloadStep c
  | .envSetAdapter n b pk => envSetAdapterStep c n b pk

/-- A run: fold the events over a configuration. -/
def run (c : Config) : List Event → Config :=
  List.foldl step c

/-- Result of one public call: the configuration after the call's own
effects, the fate of the returned observable, and whether the adapter's
underlying asynchronous operation was invoked. -/
structure CallRes (R : Type) where
  cfg : Config
  result : R
  adapterInvoked : Bool
deriving DecidableEq, Repr

/-- Fate of the observable returned by `connect()`: dropped by the
one-shot guard (completes empty), failed with an error, or succeeded. -/
inductive ConnectResult
  | filtered
  | failed (e : WalletError)
  | succeeded
deriving DecidableEq, Repr

/-- A whole `connect()` call, with the fate of `adapter.connect()`
supplied by the environment (`none` resolves, `some e` rejects): the
one-shot guard, then the no-adapter, not-ready and ready branches; in
the ready branch the state evolves by `connectStartStep` followed by
`connectSettleStep`, and a rejection is re-thrown on the result. -/
def connectCall (c : Config) (outcome : Option WalletError) : CallRes ConnectResult :=
  if c.st.connecting || c.st.disconnecting || c.st.connected then
    ⟨c, .filtered, false⟩
  else
    match c.st.adapter with
    | none => ⟨connectStartStep c, .failed .notSelected, false⟩
    | some _ =>
        if c.st.readyState = some .Installed ∨ c.st.readyState = some .Loadable then
          ⟨connectSettleStep (connectStartStep c) outcome,
           match outcome with
           | none => .succeeded
           | some e => .failed e,
           true⟩
        else ⟨connectStartStep c, .failed .notReady, false⟩

/-- Fate of the observable returned by `disconnect()`: dropped by the
guard, completed empty (the no-adapter branch returns `EMPTY`), failed,
or succeeded. -/
inductive DisconnectResult
  | filtered
  | emptyCompleted
  | failed (e : WalletError)
  | succeeded
deriving DecidableEq, Repr

/-- A whole `disconnect()` call, with the fate of `adapter.disconnect()`
supplied by the environment. -/
def disconnectCall (c : Config) (outcome : Option WalletError) : CallRes DisconnectResult :=
  if c.st.disconnecting then
    ⟨c, .filtered, false⟩
  else
    match c.st.adapter with
    | none => ⟨disconnectStartStep c, .emptyCompleted, false⟩
    | some _ =>
        ⟨disconnectSettleStep (disconnectStartStep c) outcome,
         match outcome with
         | none => .succeeded
         | some e => .failed e,
         true⟩

/-- Fate of a stream produced by a capability-gated signing function:
immediate failure (after routing the error through the sink), or a
deferred invocation of the named adapter's signing operation on the
payload. -/
inductive SigResult (A : Type)
  | errored (e : WalletError)
  | deferred (adapterName : WalletName) (payload : A)
deriving DecidableEq, Repr

namespace Internals

/-- The `signMessage` factory from the internals module: given the
adapter, the sampled connected flag and an error handler, produce a
function from a message to a stream that fails immediately with a
not-connected error when the flag is false, and otherwise defers to
`adapter.signMessage`. -/
def signMessage (adapterName : WalletName) (connected : Bool)
    (errorHandler : WalletError → Config → Config) (c : Config)
    (message : List Nat) : CallRes (SigResult (List Nat)) :=
  if connected = false then
    ⟨errorHandler .notConnected c, .errored .notConnected, false⟩
  else
    ⟨c, .deferred adapterName message, true⟩

/-- The `signTransaction` factory from the internals module. -/
def signTransaction (adapterName : WalletName) (connected : Bool)
    (errorHandler : WalletError → Config → Config) (c : Config)
    (transaction : Transaction) : CallRes (SigResult Transaction) :=
  if connected = false then
    ⟨errorHandler .notConnected c, .errored .notConnected, false⟩
  else
    ⟨c, .deferred adapterName transaction, true⟩

/-- The `signAllTransactions` factory from the internals module. -/
def signAllTransactions (adapterName : WalletName) (connected : Bool)
    (errorHandler : WalletError → Config → Config) (c : Config)
    (transactions : List Transaction) : CallRes (SigResult (List Transaction)) :=
  if connected = false then
    ⟨errorHandler .notConnected c, .errored .notConnected, false⟩
  else
    ⟨c, .deferred adapterName transactions, true⟩

end Internals

/-- The method `WalletStore.signMessage`: snapshot `{adapter, connected}` from
state; with an adapter selected that has the capability, call the gated
function with `_setError` as sink; otherwise return the `undefined`
marker (`none`), touching nothing. -/
def WalletStore.signMessage (c : Config) (message : List Nat) :
    Option (CallRes (SigResult (List Nat))) :=
  match c.st.adapter with
  | some n =>
      if heapHas c.heap n AdapterObj.hasSignMessage then
        some (Internals.signMessage n c.st.connected (fun e cf => setError cf e) c message)
      else none
  | none => none

/-- The method `WalletStore.signTransaction`: same shape for single transactions. -/
def WalletStore.signTransaction (c : Config) (transaction : Transaction) :
    Option (CallRes (SigResult Transaction)) :=
  match c.st.adapter with
  | some n =>
      if heapHas c.heap n AdapterObj.hasSignTransaction then
        some (Internals.signTransaction n c.st.connected (fun e cf => setError cf e) c transaction)
      else none
  | none => none

/-- The method `WalletStore.signAllTransactions`: same shape for batches. -/
def WalletStore.signAllTransactions (c : Config) (transactions : List Transaction) :
    Option (CallRes (SigResult (List Transaction))) :=
  match c.st.adapter with
  | some n =>
      if heapHas c.heap n AdapterObj.hasSignAllTransactions then
        some (Internals.signAllTransactions n c.st.connected (fun e cf => setError cf e) c transactions)
      else none
  | none => none

def flagsOK (c : Config) : Prop :=
  c.st.connecting = false ∨ c.st.disconnecting = false

def noOverlapAt (c : Config) : Event → Prop
  | .disconnectStart => c.st.connecting = false
  | .autoConnectFire => c.st.disconnecting = false
  | _ => True

def noOverlapRun (c : Config) : List Event → Prop
  | [] => True
  | e :: evs => noOverlapAt c e ∧ noOverlapRun (step c e) evs

def selectionInv (c : Config) : Prop :=
  (c.st.wallet = none ∧ c.st.adapter = none ∧ c.st.connected = false ∧
   c.st.publicKey = none ∧ c.st.readyState = none) ∨
  (∃ w, w ∈ c.st.wallets ∧ c.st.wallet = some w ∧ c.st.adapter = some w.adapterName ∧
   c.st.connected = heapConnected c.heap w.adapterName ∧
   c.st.publicKey = heapPublicKey c.heap w.adapterName ∧
   c.st.readyState = heapReadyState c.heap w.adapterName)

/-- A concrete installed adapter with every signing capability, used by
the concrete runs below. -/
def adapterA : AdapterObj :=
  { name := "A", url := "", readyState := .Installed, connected := false,
    publicKey := none, hasSignTransaction := true, hasSignAllTransactions := true,
    hasSignMessage := true }

/-- A concrete installed adapter with no signing capability. -/
def adapterPlain : AdapterObj :=
  { name := "P", url := "", readyState := .Installed, connected := false,
    publicKey := none, hasSignTransaction := false, hasSignAllTransactions := false,
    hasSignMessage := false }

/-- A store with no registered adapters and nothing persisted. -/
def idleConfig : Config := initConfig [] false none

/-- A store that restored the persisted selection of adapter A. -/
def selectedConfig : Config := initConfig [adapterA] false (some (encode "A"))

/-- State of `selectedConfig` after the `beforeunload` signal. -/
def selectedUnloadingConfig : Config := run selectedConfig [.windowUnload]

/-- State of `idleConfig` after the `beforeunload` signal. -/
def idleUnloadingConfig : Config := run idleConfig [.windowUnload]

/-- A run that selects A, starts a user `connect()`, and then calls
`disconnect()` while the connect is still in flight. -/
def bothFlagsConfig : Config :=
  run (initConfig [adapterA] false none)
    [.selectWalletEvt (some "A"), .connectStart, .disconnectStart]

/-- A run whose user `connect()` was rejected by the adapter with an
opaque payload, with no accompanying adapter `error` event. -/
def rejectedConnectConfig : Config :=
  run (initConfig [adapterA] false none)
    [.selectWalletEvt (some "A"), .connectStart, .connectSettle (some (.adapterError 7))]

theorem decode_encode (s : WalletName) : decode (encode s) = some s := by
  simp [decode, encode, List.getLast?_concat, List.dropLast_concat]

theorem find_nameNone (l : List Wallet) :
    l.find? (fun w => (none : Option WalletName) == some w.adapterName) = none := by
  simp [List.find?_eq_none]

theorem selectWallet_none_st (c : Config) :
    (selectWallet c none).st =
      { c.st with
          wallet := none
          adapter := none
          connected := false
          publicKey := none
          readyState := none } := by
  unfold selectWallet lssNext reconcile
  rw [find_nameNone]

theorem selectWallet_connecting (c : Config) (v : Option WalletName) :
    (selectWallet c v).st.connecting = c.st.connecting := by
  unfold selectWallet lssNext reconcile
  split <;> rfl

theorem selectWallet_disconnecting (c : Config) (v : Option WalletName) :
    (selectWallet c v).st.disconnecting = c.st.disconnecting := by
  unfold selectWallet lssNext reconcile
  split <;> rfl

theorem selectWallet_unloading (c : Config) (v : Option WalletName) :
    (selectWallet c v).st.unloading = c.st.unloading := by
  unfold selectWallet lssNext reconcile
  split <;> rfl

theorem selectWallet_error (c : Config) (v : Option WalletName) :
    (selectWallet c v).st.error = c.st.error := by
  unfold selectWallet lssNext reconcile
  split <;> rfl

theorem setError_eta (c : Config) (e : WalletError) (hu : c.st.unloading = true) :
    setError c e = c := by
  unfold setError
  rw [hu]
  rfl

theorem selectWallet_nameVal (c : Config) (v : Option WalletName) :
    (selectWallet c v).nameVal = v := by
  unfold selectWallet lssNext reconcile
  split <;> rfl

theorem selectWallet_storage_some (c : Config) (x : WalletName) :
    (selectWallet c (some x)).storage = some (encode x) := by
  unfold selectWallet lssNext reconcile
  split <;> rfl

theorem selectWallet_storage_none (c : Config) :
    (selectWallet c none).storage = none := by
  unfold selectWallet lssNext reconcile
  split <;> rfl

theorem flagsOK_of_eq (c c2 : Config)
    (hc : c2.st.connecting = c.st.connecting)
    (hd : c2.st.disconnecting = c.st.disconnecting)
    (h : flagsOK c) : flagsOK c2 := by
  rcases h with h | h
  · exact Or.inl (hc.trans h)
  · exact Or.inr (hd.trans h)

theorem step_flagsOK (c : Config) (e : Event)
    (h : flagsOK c) (hb : noOverlapAt c e) : flagsOK (step c e) := by
  cases e with
  | selectWalletEvt v =>
      exact flagsOK_of_eq c _ (selectWallet_connecting c v) (selectWallet_disconnecting c v) h
  | connectStart =>
      show flagsOK (connectStartStep c)
      unfold connectStartStep
      split
      · exact h
      · next hguard =>
        split
        · exact flagsOK_of_eq c _ rfl rfl h
        · split
          · refine Or.inr ?_
            show c.st.disconnecting = false
            simp only [Bool.or_eq_true, not_or] at hguard
            simpa using hguard.1.2
          · exact flagsOK_of_eq c _
              (selectWallet_connecting c none) (selectWallet_disconnecting c none) h
  | connectSettle err =>
      show flagsOK (connectSettleStep c err)
      unfold connectSettleStep
      split
      · exact Or.inl rfl
      · exact h
  | disconnectStart =>
      show flagsOK (disconnectStartStep c)
      unfold disconnectStartStep
      split
      · exact h
      · split
        · exact flagsOK_of_eq c _
            (selectWallet_connecting c none) (selectWallet_disconnecting c none) h
        · exact Or.inl hb
  | disconnectSettle err =>
      show flagsOK (disconnectSettleStep c err)
      unfold disconnectSettleStep
      split
      · exact Or.inr rfl
      · exact h
  | autoConnectFire =>
      show flagsOK (autoConnectFireStep c)
      unfold autoConnectFireStep
      split
      · exact Or.inr hb
      · exact h
  | adapterConnectEvt =>
      show flagsOK (adapterConnectEvtStep c)
      unfold adapterConnectEvtStep
      split
      · exact h
      · exact flagsOK_of_eq c _ rfl rfl h
  | adapterDisconnectEvt =>
      show flagsOK (adapterDisconnectEvtStep c)
      unfold adapterDisconnectEvtStep
      split
      · exact h
      · split
        · exact h
        · exact flagsOK_of_eq c _
            (selectWallet_connecting c none) (selectWallet_disconnecting c none) h
  | adapterErrorEvt err =>
      show flagsOK (adapterErrorEvtStep c err)
      unfold adapterErrorEvtStep
      split
      · exact h
      · exact flagsOK_of_eq c _ rfl rfl h
  | readyStateChangeEvt n rs =>
      show flagsOK (readyStateChangeEvtStep c n rs)
      unfold readyStateChangeEvtStep
      split
      · exact flagsOK_of_eq c _ rfl rfl h
      · exact h
  | windowUnload =>
      exact flagsOK_of_eq c _ rfl rfl h
  | envSetAdapter n b pk =>
      exact flagsOK_of_eq c _ rfl rfl h

theorem run_flagsOK (evs : List Event) (c : Config)
    (h0 : flagsOK c) (hb : noOverlapRun c evs) : flagsOK (run c evs) := by
  induction evs generalizing c with
  | nil => exact h0
  | cons e evs ih => exact ih (step c e) (step_flagsOK c e h0 hb.1) hb.2

theorem initConfig_flagsOK (adapters : List AdapterObj) (auto : Bool)
    (storage : Option (List Char)) : flagsOK (initConfig adapters auto storage) := by
  unfold initConfig reconcile
  split <;> exact Or.inl rfl

theorem reconcile_selectionInv (c : Config) : selectionInv (reconcile c) := by
  unfold selectionInv reconcile
  split
  next w hw =>
    right
    exact ⟨w, List.mem_of_find?_eq_some hw, rfl, rfl, rfl, rfl, rfl⟩
  next =>
    left
    exact ⟨rfl, rfl, rfl, rfl, rfl⟩

theorem run_select_selectionInv (names : List (Option WalletName)) (c : Config)
    (h : selectionInv c) :
    selectionInv (run c (names.map Event.selectWalletEvt)) := by
  induction names generalizing c with
  | nil => exact h
  | cons n ns ih => exact ih (step c (.selectWalletEvt n)) (reconcile_selectionInv _)

theorem connectStart_ready (c : Config) (n : WalletName)
    (h1 : c.st.connecting = false) (h2 : c.st.disconnecting = false)
    (h3 : c.st.connected = false) (h4 : c.st.adapter = some n)
    (h5 : c.st.readyState = some .Installed ∨ c.st.readyState = some .Loadable) :
    connectStartStep c = { c with st := { c.st with connecting := true } } := by
  unfold connectStartStep
  rcases h5 with h5 | h5 <;> simp [h1, h2, h3, h4, h5]

theorem connectSettle_reject_st (c1 : Config) (e : WalletError)
    (h : c1.st.connecting = true) :
    (connectSettleStep c1 (some e)).st =
      { c1.st with
          wallet := none
          adapter := none
          connecting := false
          connected := false
          publicKey := none
          readyState := none } := by
  unfold connectSettleStep
  rw [if_pos h]
  show ({ selectWallet c1 none with
      st := { (selectWallet c1 none).st with connecting := false } }).st = _
  rw [selectWallet_none_st]

theorem connectCall_reject (c : Config) (n : WalletName) (e : WalletError)
    (h1 : c.st.connecting = false) (h2 : c.st.disconnecting = false)
    (h3 : c.st.connected = false) (h4 : c.st.adapter = some n)
    (h5 : c.st.readyState = some .Installed ∨ c.st.readyState = some .Loadable) :
    connectCall c (some e) =
      ⟨connectSettleStep (connectStartStep c) (some e), .failed e, true⟩ := by
  unfold connectCall
  rcases h5 with h5 | h5 <;> simp [h1, h2, h3, h4, h5]

/-- Claim C1 counterexample: from a store with one installed adapter,
the interleaving select A, `connect()` (setting `connecting`), then
`disconnect()` (whose guard samples only `disconnecting`) reaches a
state with `connecting` and `disconnecting` simultaneously true, so the
claimed invariant fails. -/
theorem connecting_disconnecting_both_true :
    bothFlagsConfig.st.connecting = true ∧ bothFlagsConfig.st.disconnecting = true := by
  decide

/-- Claim C1 (amended): `connecting` and `disconnecting` can be
simultaneously true, because `disconnect()` guards only on
`disconnecting` and `onAutoConnect` does not consult `disconnecting`.
Restricted to interleavings in which `disconnect()` is never invoked
while `connecting` is true and autoconnect never fires while
`disconnecting` is true, every reachable state has at most one of the
two flags set. -/
theorem connecting_disconnecting_exclusive (adapters : List AdapterObj)
    (auto : Bool) (storage : Option (List Char)) (evs : List Event)
    (hb : noOverlapRun (initConfig adapters auto storage) evs) :
    flagsOK (run (initConfig adapters auto storage) evs) :=
  run_flagsOK evs _ (initConfig_flagsOK adapters auto storage) hb

/-- Witness for the amended C1 theorem on a concrete four-event run
that includes a `disconnect()` issued only after the connect settled. -/
theorem connecting_disconnecting_exclusive_witness :
    flagsOK (run (initConfig [adapterA] false none)
      [.selectWalletEvt (some "A"), .connectStart, .connectSettle none, .disconnectStart]) :=
  connecting_disconnecting_exclusive [adapterA] false none
    [.selectWalletEvt (some "A"), .connectStart, .connectSettle none, .disconnectStart]
    ⟨trivial, trivial, trivial,
     (by decide :
       (run (initConfig [adapterA] false none)
         [.selectWalletEvt (some "A"), .connectStart, .connectSettle none]).st.connecting
         = false),
     trivial⟩

/-- Claim C2: after any sequence of `selectWallet` calls, the five
selection fields are either all the Idle defaults or all snapshots of a
single registered wallet's adapter — never a partial mix. -/
theorem selectWallet_sequences_consistent (adapters : List AdapterObj)
    (auto : Bool) (storage : Option (List Char)) (names : List (Option WalletName)) :
    selectionInv (run (initConfig adapters auto storage) (names.map Event.selectWalletEvt)) :=
  run_select_selectionInv names _ (reconcile_selectionInv _)

/-- Claim C3 counterexample: a user `connect()` on the selected,
installed adapter A whose `adapter.connect()` rejects with an opaque
payload (and no separate adapter `error` event) ends with
`connecting=false` and the selection cleared, but the state's error
field does NOT hold the rejection payload — the `catchError` branch of
`connect()` only clears the selection and rethrows, without calling
`_setError`. -/
theorem connect_rejection_error_not_recorded :
    rejectedConnectConfig.st.connecting = false ∧
    rejectedConnectConfig.st.wallet = none ∧
    rejectedConnectConfig.st.adapter = none ∧
    rejectedConnectConfig.st.error ≠ some (.adapterError 7) := by
  decide

/-- Claim C3 (amended): when `connect()` is issued with a ready adapter
selected and `adapter.connect()` rejects, the call ends with
`connecting=false`, the selection cleared through `selectWallet(null)`,
and the rejection re-thrown on the returned result — but the state's
error field is left unchanged by the call itself (it is updated only if
the adapter separately emits an `error` event). -/
theorem connect_rejection_clears_selection (c : Config) (n : WalletName) (e : WalletError)
    (h1 : c.st.connecting = false) (h2 : c.st.disconnecting = false)
    (h3 : c.st.connected = false) (h4 : c.st.adapter = some n)
    (h5 : c.st.readyState = some .Installed ∨ c.st.readyState = some .Loadable) :
    (connectCall c (some e)).result = .failed e ∧
    (connectCall c (some e)).adapterInvoked = true ∧
    (connectCall c (some e)).cfg.st.connecting = false ∧
    (connectCall c (some e)).cfg.st.wallet = none ∧
    (connectCall c (some e)).cfg.st.adapter = none ∧
    (connectCall c (some e)).cfg.st.error = c.st.error := by
  have hcc := connectCall_reject c n e h1 h2 h3 h4 h5
  have hstart := connectStart_ready c n h1 h2 h3 h4 h5
  have hst : (connectSettleStep (connectStartStep c) (some e)).st =
      { { c with st := { c.st with connecting := true } }.st with
          wallet := none
          adapter := none
          connecting := false
          connected := false
          publicKey := none
          readyState := none } := by
    rw [hstart]
    exact connectSettle_reject_st _ e rfl
  rw [hcc]
  exact ⟨rfl, rfl, by rw [hst], by rw [hst], by rw [hst], by rw [hst]⟩

/-- Witness for the amended C3 theorem: the concrete rejected-connect
run on adapter A. -/
theorem connect_rejection_clears_selection_witness :
    (connectCall selectedConfig (some (.adapterError 7))).result = .failed (.adapterError 7) ∧
    (connectCall selectedConfig (some (.adapterError 7))).adapterInvoked = true ∧
    (connectCall selectedConfig (some (.adapterError 7))).cfg.st.connecting = false ∧
    (connectCall selectedConfig (some (.adapterError 7))).cfg.st.wallet = none ∧
    (connectCall selectedConfig (some (.adapterError 7))).cfg.st.adapter = none ∧
    (connectCall selectedConfig (some (.adapterError 7))).cfg.st.error = selectedConfig.st.error :=
  connect_rejection_clears_selection selectedConfig "A" (.adapterError 7)
    (by decide) (by decide) (by decide) (by decide) (Or.inl (by decide))

/-- Claim C4: `signMessage` called with the capable adapter A selected
but `connected=false` returns a stream that fails immediately with the
not-connected error after routing it through the `_setError` sink, and
the adapter's `signMessage` operation is never invoked. -/
theorem signMessage_not_connected (c : Config) (n : WalletName) (message : List Nat)
    (h1 : c.st.adapter = some n)
    (h2 : heapHas c.heap n AdapterObj.hasSignMessage = true)
    (h3 : c.st.connected = false) :
    WalletStore.signMessage c message =
      some ⟨setError c .notConnected, .errored .notConnected, false⟩ := by
  unfold WalletStore.signMessage Internals.signMessage
  simp [h1, h2, h3]

/-- Witness for C4 at the restored selection of adapter A. -/
theorem signMessage_not_connected_witness :
    WalletStore.signMessage selectedConfig [1, 2, 3] =
      some ⟨setError selectedConfig .notConnected, .errored .notConnected, false⟩ :=
  signMessage_not_connected selectedConfig "A" [1, 2, 3] (by decide) (by decide) (by decide)

/-- Claim C5: `connect()` called while `connecting`, `disconnecting` or
`connected` is true is dropped by the one-shot sampled guard: the
configuration is unchanged, the returned observable completes empty,
and the adapter's connect operation is never invoked. -/
theorem connect_noop_when_busy (c : Config) (outcome : Option WalletError)
    (h : c.st.connecting = true ∨ c.st.disconnecting = true ∨ c.st.connected = true) :
    connectCall c outcome = ⟨c, .filtered, false⟩ := by
  unfold connectCall
  rcases h with h | h | h <;> simp [h]

/-- Witness for C5 on the concrete state with a connect in flight. -/
theorem connect_noop_when_busy_witness :
    connectCall (run (initConfig [adapterA] false none)
        [.selectWalletEvt (some "A"), .connectStart]) none =
      ⟨run (initConfig [adapterA] false none)
        [.selectWalletEvt (some "A"), .connectStart], .filtered, false⟩ :=
  connect_noop_when_busy _ none (Or.inl (by decide))

/-- Claim C6: a `disconnect` event from the selected adapter clears the
selection to the Idle defaults while `unloading=false`; while
`unloading=true` the same event, and any adapter `error` event, leave
the configuration completely unchanged (the error field keeps its
previous value). -/
theorem disconnect_event_teardown_suppression (c : Config) (n : WalletName) (e : WalletError)
    (had : c.st.adapter = some n) :
    (c.st.unloading = false →
      adapterDisconnectEvtStep c = selectWallet c none ∧
      (adapterDisconnectEvtStep c).st.wallet = none ∧
      (adapterDisconnectEvtStep c).st.adapter = none ∧
      (adapterDisconnectEvtStep c).st.connected = false ∧
      (adapterDisconnectEvtStep c).st.publicKey = none ∧
      (adapterDisconnectEvtStep c).st.readyState = none) ∧
    (c.st.unloading = true →
      adapterDisconnectEvtStep c = c ∧ adapterErrorEvtStep c e = c) := by
  constructor
  · intro hu
    have hstep : adapterDisconnectEvtStep c = selectWallet c none := by
      unfold adapterDisconnectEvtStep
      simp [had, hu]
    refine ⟨hstep, ?_, ?_, ?_, ?_, ?_⟩ <;> rw [hstep, selectWallet_none_st]
  · intro hu
    constructor
    · unfold adapterDisconnectEvtStep
      simp [had, hu]
    · unfold adapterErrorEvtStep
      rw [had]
      exact setError_eta c e hu

/-- Witness for C6: the live selection clears on the event, and the
unloading store ignores both events. -/
theorem disconnect_event_teardown_suppression_witness :
    (adapterDisconnectEvtStep selectedConfig).st.wallet = none ∧
    adapterDisconnectEvtStep selectedUnloadingConfig = selectedUnloadingConfig ∧
    adapterErrorEvtStep selectedUnloadingConfig (.adapterError 3) = selectedUnloadingConfig :=
  ⟨((disconnect_event_teardown_suppression selectedConfig "A" (.adapterError 3)
      (by decide)).1 (by decide)).2.1,
   ((disconnect_event_teardown_suppression selectedUnloadingConfig "A" (.adapterError 3)
      (by decide)).2 (by decide)).1,
   ((disconnect_event_teardown_suppression selectedUnloadingConfig "A" (.adapterError 3)
      (by decide)).2 (by decide)).2⟩

/-- Claim C7: round trip through the persisted selection cell —
`selectWallet(X)` leaves `X` as the cell's latest value and stores its
serialization durably (so a fresh initial read also yields `X`), while
`selectWallet(null)` removes the durable entry entirely, so a
subsequent initial read yields absent. -/
theorem persisted_selection_roundtrip (c : Config) (x : WalletName) :
    (selectWallet c (some x)).nameVal = some x ∧
    (selectWallet c (some x)).storage = some (encode x) ∧
    getInitialValue (selectWallet c (some x)).storage = some x ∧
    (selectWallet c none).storage = none ∧
    getInitialValue (selectWallet c none).storage = none := by
  refine ⟨selectWallet_nameVal c (some x), selectWallet_storage_some c x, ?_,
    selectWallet_storage_none c, ?_⟩
  · rw [selectWallet_storage_some]
    show (if encode x = [] then none else decode (encode x)) = some x
    rw [if_neg (by simp [encode])]
    exact decode_encode x
  · rw [selectWallet_storage_none]
    rfl

/-- Claim C8: each signing wrapper returns the `undefined` marker
(`none`) — invoking nothing and producing no state change — when no
adapter is selected or the selected adapter lacks the corresponding
capability. -/
theorem sign_unsupported_marker (c : Config) (tx : Transaction)
    (txs : List Transaction) (m : List Nat) :
    (c.st.adapter = none →
      WalletStore.signTransaction c tx = none ∧
      WalletStore.signAllTransactions c txs = none ∧
      WalletStore.signMessage c m = none) ∧
    (∀ n, c.st.adapter = some n →
      (heapHas c.heap n AdapterObj.hasSignTransaction = false →
        WalletStore.signTransaction c tx = none) ∧
      (heapHas c.heap n AdapterObj.hasSignAllTransactions = false →
        WalletStore.signAllTransactions c txs = none) ∧
      (heapHas c.heap n AdapterObj.hasSignMessage = false →
        WalletStore.signMessage c m = none)) := by
  constructor
  · intro h
    refine ⟨?_, ?_, ?_⟩
    · unfold WalletStore.signTransaction
      simp [h]
    · unfold WalletStore.signAllTransactions
      simp [h]
    · unfold WalletStore.signMessage
      simp [h]
  · intro n h
    refine ⟨?_, ?_, ?_⟩ <;> intro hcap
    · unfold WalletStore.signTransaction
      simp [h, hcap]
    · unfold WalletStore.signAllTransactions
      simp [h, hcap]
    · unfold WalletStore.signMessage
      simp [h, hcap]

/-- Witness for C8: the idle store and the store holding the
capability-less adapter P both return the marker for all three calls. -/
theorem sign_unsupported_marker_witness :
    (WalletStore.signTransaction idleConfig 0 = none ∧
     WalletStore.signAllTransactions idleConfig [] = none ∧
     WalletStore.signMessage idleConfig [] = none) ∧
    (WalletStore.signTransaction (initConfig [adapterPlain] false (some (encode "P"))) 0 = none ∧
     WalletStore.signAllTransactions (initConfig [adapterPlain] false (some (encode "P"))) [] = none ∧
     WalletStore.signMessage (initConfig [adapterPlain] false (some (encode "P"))) [] = none) :=
  ⟨(sign_unsupported_marker idleConfig 0 [] []).1 (by decide),
   ⟨((sign_unsupported_marker (initConfig [adapterPlain] false (some (encode "P"))) 0 [] []).2
       "P" (by decide)).1 (by decide),
    ((sign_unsupported_marker (initConfig [adapterPlain] false (some (encode "P"))) 0 [] []).2
       "P" (by decide)).2.1 (by decide),
    ((sign_unsupported_marker (initConfig [adapterPlain] false (some (encode "P"))) 0 [] []).2
       "P" (by decide)).2.2 (by decide)⟩⟩

/-- Claim C9 counterexample: when the page is unloading, a `connect()`
with no adapter selected (all transition flags false) still fails its
result with the not-selected error, but `_setError` suppresses the
recording, so the state's error field stays empty — the claim's
unconditional "error field is set" fails. -/
theorem connect_not_selected_unloading_counterexample :
    idleUnloadingConfig.st.connecting = false ∧
    idleUnloadingConfig.st.disconnecting = false ∧
    idleUnloadingConfig.st.connected = false ∧
    idleUnloadingConfig.st.adapter = none ∧
    (connectCall idleUnloadingConfig none).result = .failed .notSelected ∧
    (connectCall idleUnloadingConfig none).cfg.st.error = none := by
  decide

/-- Claim C9 (amended): with no adapter selected and the three
transition flags false, `connect()` fails its returned result with the
not-selected error, invokes no adapter operation, and — provided the
store is not unloading — records that same error in the state. -/
theorem connect_not_selected (c : Config) (outcome : Option WalletError)
    (h1 : c.st.connecting = false) (h2 : c.st.disconnecting = false)
    (h3 : c.st.connected = false) (h4 : c.st.adapter = none)
    (h5 : c.st.unloading = false) :
    connectCall c outcome = ⟨setError c .notSelected, .failed .notSelected, false⟩ ∧
    (setError c .notSelected).st.error = some .notSelected := by
  constructor
  · unfold connectCall connectStartStep
    simp [h1, h2, h3, h4]
  · unfold setError
    simp [h5]

/-- Witness for the amended C9 theorem at the idle store. -/
theorem connect_not_selected_witness :
    connectCall idleConfig none =
      ⟨setError idleConfig .notSelected, .failed .notSelected, false⟩ ∧
    (setError idleConfig .notSelected).st.error = some .notSelected :=
  connect_not_selected idleConfig none
    (by decide) (by decide) (by decide) (by decide) (by decide)

/-- Claim C10: `disconnect()` with no adapter selected and
`disconnecting=false` completes its returned observable empty, rewrites
a null selection through the persisted cell (removing the durable
entry), never sets `disconnecting`, and invokes no adapter operation. -/
theorem disconnect_no_adapter (c : Config) (outcome : Option WalletError)
    (h1 : c.st.disconnecting = false) (h2 : c.st.adapter = none) :
    disconnectCall c outcome = ⟨selectWallet c none, .emptyCompleted, false⟩ ∧
    (selectWallet c none).st.disconnecting = false ∧
    (selectWallet c none).nameVal = none ∧
    (selectWallet c none).storage = none := by
  refine ⟨?_, ?_, selectWallet_nameVal c none, selectWallet_storage_none c⟩
  · unfold disconnectCall disconnectStartStep
    simp [h1, h2]
  · rw [selectWallet_disconnecting]
    exact h1

/-- Witness for C10 at the idle store. -/
theorem disconnect_no_adapter_witness :
    disconnectCall idleConfig none =
      ⟨selectWallet idleConfig none, .emptyCompleted, false⟩ ∧
    (selectWallet idleConfig none).st.disconnecting = false ∧
    (selectWallet idleConfig none).nameVal = none ∧
    (selectWallet idleConfig none).storage = none :=
  disconnect_no_adapter idleConfig none (by decide) (by decide)

end WalletAdapter
